import Mathlib

/-
Verification development for the grocery_ai repository.

The embedding below follows the runner version found in src/unnamed/part_002
(runJob / processSite together with lib/utils/cart-judge.ts judgeCart and the
barbora driver's calculateQuantityMultiplier), which is the version whose
judgeCart call signature matches lib/utils/cart-judge.ts.  External effects
(Playwright pages, the OpenAI client, the cart scraper, logging) are modeled
as oracles: a SiteDriver is a pair of functions returning Except (a thrown
error is its String rendering), the scrape step is an Except value, and the
semantic-comparison collaborator response is an Except of a small JSON model.
JavaScript numbers appearing in quantity strings are modeled as rationals,
and a division whose JS result would be non-finite (Infinity or NaN from a
zero divisor) is modeled as Option.none.
-/

namespace Grocery

/-- Candidate kind, the type field of an alternatives entry in runner.ts. -/
inductive AltType where
  | url
  | query
deriving DecidableEq, Repr

/-- One entry of CartItem.alternatives in runner.ts. -/
structure Alt where
  type : AltType
  value : String
deriving DecidableEq, Repr

/-- CartItem from runner.ts.  site is a String because at runtime an invalid
site name can arrive from JSON; url, query, qty and alternatives are the
optional fields of the interface. -/
structure CartItem where
  site : String
  url : Option String := none
  query : Option String := none
  qty : Option Int := none
  alternatives : Option (List Alt) := none
deriving DecidableEq, Repr

/-- AddResult from runner.ts: what a driver returns on success. -/
structure AddResult where
  productName : String
  quantityAdded : Int
deriving DecidableEq, Repr

/-- FailureReason values of FailedItem.reason in runner.ts
(the string literals out_of_stock, not_found, error). -/
inductive FailureReason where
  | out_of_stock
  | not_found
  | error
deriving DecidableEq, Repr

/-- FailedItem from runner.ts. -/
structure FailedItem where
  query : Option String
  url : Option String
  reason : FailureReason
  details : Option String
  site : String
deriving DecidableEq, Repr

/-- AddedItem from runner.ts. -/
structure AddedItem where
  originalRequest : String
  productAdded : String
  quantityRequested : Int
  quantityAdded : Int
  site : String
deriving DecidableEq, Repr

/-- CartItem from cart-scraper.ts, imported as ScrapedCartItem in the runner. -/
structure ScrapedCartItem where
  productName : String
  quantity : Rat
  unit : String
  price : Option String := none
deriving DecidableEq, Repr

/-- JudgmentItem from cart-judge.ts.  The numeric JSON fields coming back from
the collaborator are modeled as rationals; status is the raw string from the
response (the code does not validate it). -/
structure JudgmentItem where
  originalRequest : String
  status : String
  productAdded : Option String
  quantityRequested : Rat
  quantityAdded : Option Rat
  matchScore : Rat
  notes : List String
deriving DecidableEq, Repr

/-- JavaScript string truthiness for an optional field: absent and the empty
string are falsy. -/
def truthy : Option String → Bool
  | none => false
  | some s => !(s = "")

/-- JavaScript a or-else b on optional strings, as in item.query or item.url
or a default. -/
def jsOrStr (o : Option String) (dflt : String) : String :=
  match o with
  | some s => if s = "" then dflt else s
  | none => dflt

/-- JavaScript item.qty or 1: an absent or zero quantity becomes 1
(0 is falsy in JS). -/
def qtyOrOne (o : Option Int) : Int :=
  match o with
  | some q => if q = 0 then 1 else q
  | none => 1

/-- Lowercase a string character by character, as String.prototype.toLowerCase
does on the ASCII error details this code handles. -/
def lowerStr (s : String) : String :=
  String.mk (s.toList.map Char.toLower)

/-- Pattern pat occurs at the head of the character list. -/
def startsWithList : List Char → List Char → Bool
  | [], _ => true
  | _ :: _, [] => false
  | p :: ps, h :: hs => p = h && startsWithList ps hs

/-- Pattern pat occurs somewhere in the character list. -/
def containsList (pat : List Char) : List Char → Bool
  | [] => startsWithList pat []
  | c :: rest => startsWithList pat (c :: rest) || containsList pat rest

/-- JavaScript String.prototype.includes: substring containment. -/
def includesSub (hay pat : String) : Bool :=
  containsList pat.toList hay.toList

/-- Failure classification from processSite in the runner:
errorLower.includes checks on the lowercased error string, first
out_of_stock, then not_found or not found, else error. -/
def classifyReason (errorStr : String) : FailureReason :=
  let errorLower := lowerStr errorStr
  if includesSub errorLower "out_of_stock" then FailureReason.out_of_stock
  else if includesSub errorLower "not_found" || includesSub errorLower "not found" then
    FailureReason.not_found
  else FailureReason.error

/- Quantity calculator (calculateQuantityMultiplier in the barbora driver).
The regex (\d+(?:\.\d+)?)\s*(kg|g|l|ml|vnt|pack)/i is embedded as a leftmost
scan: at each position take a maximal digit run, an optional fraction part,
maximal whitespace, then the first unit of the alternation matching
case-insensitively.  Backtracking never changes the outcome here because a
shorter digit run leaves a digit where the pattern next requires a dot,
whitespace or a unit letter. -/

/-- Numeric value of a run of decimal digit characters. -/
def digitsVal (ds : List Char) : Nat :=
  ds.foldl (fun n c => 10 * n + (c.toNat - 48)) 0

/-- The unit alternation of the regex, in source order. -/
def unitAlternation : List String := ["kg", "g", "l", "ml", "vnt", "pack"]

/-- Case-insensitive match of one of the units at the head of the character
list, trying the alternation in order; returns the canonical lowercase unit
(the code lowercases the matched text). -/
def matchUnit (rest : List Char) : Option String :=
  unitAlternation.findSome? fun u =>
    if (rest.take u.length).map Char.toLower = u.toList then some u else none

/-- Attempt the quantity regex anchored at the head of the list: digits,
optional dot-digits fraction, whitespace, then a unit. -/
def matchAt (l : List Char) : Option (Rat × String) :=
  match l.span Char.isDigit with
  | ([], _) => none
  | (ds, rest) =>
    let (amount, rest2) : Rat × List Char :=
      match rest with
      | '.' :: rest1 =>
        match rest1.span Char.isDigit with
        | ([], _) => ((digitsVal ds : Rat), rest)
        | (fs, rest3) =>
          ((digitsVal ds : Rat) + (digitsVal fs : Rat) / ((10 : Rat) ^ fs.length), rest3)
      | _ => ((digitsVal ds : Rat), rest)
    match matchUnit (rest2.dropWhile Char.isWhitespace) with
    | some u => some (amount, u)
    | none => none

/-- Leftmost application of the quantity regex, as String.prototype.match. -/
def scanQuantity : List Char → Option (Rat × String)
  | [] => none
  | c :: rest =>
    match matchAt (c :: rest) with
    | some r => some r
    | none => scanQuantity rest

/-- Math.ceil (a / b) on JS numbers: a zero divisor yields a non-finite
result (Infinity or NaN), modeled as none. -/
def jsCeilDiv (a b : Rat) : Option Int :=
  if b = 0 then none else some (Int.ceil (a / b))

/-- calculateQuantityMultiplier from the barbora driver.  Extraction failure
on either side gives 1; differing units are converted only between kg and g;
with equal units the amount ratio is ceiled when the desired amount exceeds
the product amount. -/
def calculateQuantityMultiplier (desiredQuantity productTitle : String) : Option Int :=
  match scanQuantity desiredQuantity.toList with
  | none => some 1
  | some (desiredAmount, desiredUnit) =>
    match scanQuantity productTitle.toList with
    | none => some 1
    | some (productAmount, productUnit) =>
      if desiredUnit ≠ productUnit then
        if desiredUnit = "kg" ∧ productUnit = "g" then
          jsCeilDiv (desiredAmount * 1000) productAmount
        else if desiredUnit = "g" ∧ productUnit = "kg" then
          jsCeilDiv desiredAmount (productAmount * 1000)
        else some 1
      else
        if desiredAmount > productAmount then jsCeilDiv desiredAmount productAmount
        else some 1

/- Resolution engine (processSite in the runner).  A SiteDriver is the pair
of per-site functions addByUrl and addByQuery; a thrown error is modeled as
Except.error carrying its String rendering, which is what the caller turns
into a FailedItem via String(error).  ensureLoggedIn and all page actions
are side effects with no result visible to this core and are omitted. -/

/-- Per-site driver interface: addByUrl and addByQuery. -/
structure SiteDriver where
  addByUrl : String → Int → Except String AddResult
  addByQuery : String → Int → Except String AddResult

/-- Dispatch one candidate to the driver by its kind, as the per-alternative
branch of processSite does. -/
def dispatch (driver : SiteDriver) (alt : Alt) (qty : Int) : Except String AddResult :=
  match alt.type with
  | AltType.url => driver.addByUrl alt.value qty
  | AltType.query => driver.addByQuery alt.value qty

/-- Boolean success test on a dispatch result. -/
def exceptIsOk : Except String AddResult → Bool
  | Except.ok _ => true
  | Except.error _ => false

/-- Observable outcome of processing one item: the records appended to the
per-site addedItems and failedItems accumulators, plus the trace of
candidate dispatches (candidate, quantity) in attempt order. -/
structure ItemOutcome where
  addedItems : List AddedItem
  failedItems : List FailedItem
  attempts : List (Alt × Int)
deriving DecidableEq, Repr

/-- The alternatives loop of processSite: try each candidate in order with
the same qty; on the first success push one AddedItem whose originalRequest
is the first alternative's value; if the loop ends without success push one
FailedItem whose identifier comes from the first alternative and whose
reason and details come from String(lastError). -/
def tryAlternatives (driver : SiteDriver) (site : String) (qty : Int) (firstAlt : Alt)
    (lastError : Option String) : List Alt → ItemOutcome
  | [] =>
    let errorStr := lastError.getD ""
    { addedItems := []
      failedItems := [{ query := if firstAlt.type = AltType.query then some firstAlt.value else none
                        url := if firstAlt.type = AltType.url then some firstAlt.value else none
                        reason := classifyReason errorStr
                        details := some errorStr
                        site := site }]
      attempts := [] }
  | alt :: rest =>
    match dispatch driver alt qty with
    | Except.ok result =>
      { addedItems := [{ originalRequest := firstAlt.value
                         productAdded := result.productName
                         quantityRequested := qty
                         quantityAdded := result.quantityAdded
                         site := site }]
        failedItems := []
        attempts := [(alt, qty)] }
    | Except.error e =>
      let tail := tryAlternatives driver site qty firstAlt (some e) rest
      { tail with attempts := (alt, qty) :: tail.attempts }

/-- Processing of one item in processSite: the alternatives branch when the
alternatives array is non-empty, otherwise the single-item branch that
dispatches by url first, then by query, and records nothing when neither
field is truthy. -/
def processItem (driver : SiteDriver) (site : String) (item : CartItem) : ItemOutcome :=
  let qty := qtyOrOne item.qty
  match item.alternatives with
  | some (firstAlt :: rest) => tryAlternatives driver site qty firstAlt none (firstAlt :: rest)
  | _ =>
    if truthy item.url then
      match driver.addByUrl (item.url.getD "") qty with
      | Except.ok result =>
        { addedItems := [{ originalRequest := jsOrStr item.query (jsOrStr item.url "Unknown")
                           productAdded := result.productName
                           quantityRequested := qty
                           quantityAdded := result.quantityAdded
                           site := site }]
          failedItems := []
          attempts := [(⟨AltType.url, item.url.getD ""⟩, qty)] }
      | Except.error e =>
        { addedItems := []
          failedItems := [{ query := item.query
                            url := item.url
                            reason := classifyReason e
                            details := some e
                            site := site }]
          attempts := [(⟨AltType.url, item.url.getD ""⟩, qty)] }
    else if truthy item.query then
      match driver.addByQuery (item.query.getD "") qty with
      | Except.ok result =>
        { addedItems := [{ originalRequest := jsOrStr item.query (jsOrStr item.url "Unknown")
                           productAdded := result.productName
                           quantityRequested := qty
                           quantityAdded := result.quantityAdded
                           site := site }]
          failedItems := []
          attempts := [(⟨AltType.query, item.query.getD ""⟩, qty)] }
      | Except.error e =>
        { addedItems := []
          failedItems := [{ query := item.query
                            url := item.url
                            reason := classifyReason e
                            details := some e
                            site := site }]
          attempts := [(⟨AltType.query, item.query.getD ""⟩, qty)] }
    else
      { addedItems := [], failedItems := [], attempts := [] }

/-- The item loop of processSite: items are processed strictly in order and
each item's records are appended to the site accumulators. -/
def processSiteItems (driver : SiteDriver) (site : String) : List CartItem → ItemOutcome
  | [] => { addedItems := [], failedItems := [], attempts := [] }
  | item :: rest =>
    let o := processItem driver site item
    let os := processSiteItems driver site rest
    { addedItems := o.addedItems ++ os.addedItems
      failedItems := o.failedItems ++ os.failedItems
      attempts := o.attempts ++ os.attempts }

/-- Result of processSite for one site. -/
structure SiteOutcome where
  failedItems : List FailedItem
  addedItems : List AddedItem
  actualCart : List ScrapedCartItem
deriving DecidableEq, Repr

/-- processSite after a successful session bootstrap: process every item,
then scrape the cart; a scrape failure is caught and leaves actualCart
empty without touching the item records. -/
def processSite (driver : SiteDriver) (scrape : Except String (List ScrapedCartItem))
    (site : String) (items : List CartItem) : SiteOutcome :=
  let o := processSiteItems driver site items
  { failedItems := o.failedItems
    addedItems := o.addedItems
    actualCart := match scrape with
      | Except.ok cart => cart
      | Except.error _ => [] }

/- Reconciliation engine (judgeCart in cart-judge.ts).  The OpenAI call is
modeled as an oracle response: Except.error stands for any throw on the way
to a parsed value (API failure, null content, or JSON.parse throwing), and
JudgeJson models the parsed JSON value the code inspects. -/

/-- Parsed JSON response shape as judgeCart inspects it: an array of
judgment objects, an object whose items field is present (truthy), or an
object without a usable items field. -/
inductive JudgeJson where
  | arrOf (items : List JudgmentItem) : JudgeJson
  | objWithItems (items : JudgeJson) : JudgeJson
  | objNoItems : JudgeJson
deriving DecidableEq, Repr

/-- judgeCart from cart-judge.ts.  The four cart arguments only feed the
prompt text sent to the collaborator; the returned judgments are taken from
parsed.items when present, else from the parsed value itself, returned
verbatim when they form an array, and [] otherwise or on any throw. -/
def judgeCart (originalItems : List CartItem) (addedItems : List AddedItem)
    (failedItems : List FailedItem) (actualCartItems : List ScrapedCartItem)
    (response : Except String JudgeJson) : List JudgmentItem :=
  match response with
  | Except.error _ => []
  | Except.ok parsed =>
    let judgments : JudgeJson :=
      match parsed with
      | JudgeJson.objWithItems v => v
      | v => v
    match judgments with
    | JudgeJson.arrOf l => l
    | _ => []

/- Run surface (runJob in the runner). -/

/-- RunJobResult from the runner. -/
structure RunJobResult where
  judgments : Option (List JudgmentItem)
  originalItems : List CartItem
  addedItems : List AddedItem
  failedItems : List FailedItem
deriving DecidableEq, Repr

/-- The grouping filter of runJob: an item is kept when its site is a key of
DRIVERS (barbora or rimi) and at least one of url, query, alternatives is
usable; otherwise the item is skipped with only a log warning. -/
def keepItem (item : CartItem) : Bool :=
  (item.site = "barbora" || item.site = "rimi") &&
    (truthy item.url || truthy item.query ||
      (match item.alternatives with
       | some (_ :: _) => true
       | _ => false))

/-- Accumulator loop for firstOccurrences: keep a string the first time it
is seen. -/
def firstOccurrencesAux (seen : List String) : List String → List String
  | [] => []
  | s :: rest =>
    if seen.contains s then firstOccurrencesAux seen rest
    else s :: firstOccurrencesAux (s :: seen) rest

/-- Key order of a JS Map built by insertion: first occurrences, in order. -/
def firstOccurrences (l : List String) : List String :=
  firstOccurrencesAux [] l

/-- Added items of a run, from the grouped valid items. -/
def runAdded (drivers : String → SiteDriver)
    (scrape : String → Except String (List ScrapedCartItem))
    (valid : List CartItem) : List AddedItem :=
  ((firstOccurrences (valid.map CartItem.site)).map fun s =>
    (processSite (drivers s) (scrape s) s (valid.filter fun it => it.site = s)).addedItems).flatten

/-- Failed items of a run, from the grouped valid items. -/
def runFailed (drivers : String → SiteDriver)
    (scrape : String → Except String (List ScrapedCartItem))
    (valid : List CartItem) : List FailedItem :=
  ((firstOccurrences (valid.map CartItem.site)).map fun s =>
    (processSite (drivers s) (scrape s) s (valid.filter fun it => it.site = s)).failedItems).flatten

/-- Scraped cart lines of a run, from the grouped valid items. -/
def runActualCart (drivers : String → SiteDriver)
    (scrape : String → Except String (List ScrapedCartItem))
    (valid : List CartItem) : List ScrapedCartItem :=
  ((firstOccurrences (valid.map CartItem.site)).map fun s =>
    (processSite (drivers s) (scrape s) s (valid.filter fun it => it.site = s)).actualCart).flatten

/-- runJob from the runner: an empty input returns an empty result; else the
items are filtered and grouped by site, each site is processed in key order,
verification runs only when useOpenAI and the API key are both set, and the
structured result always carries the original items plus the accumulated
records. -/
def runJob (drivers : String → SiteDriver)
    (scrape : String → Except String (List ScrapedCartItem))
    (judgeResponse : Except String JudgeJson)
    (useOpenAI hasApiKey : Bool) (items : List CartItem) : RunJobResult :=
  if items.isEmpty then
    { judgments := none, originalItems := [], addedItems := [], failedItems := [] }
  else
    let valid := items.filter keepItem
    let allAddedItems := runAdded drivers scrape valid
    let allFailedItems := runFailed drivers scrape valid
    let allActualCartItems := runActualCart drivers scrape valid
    { judgments :=
        if useOpenAI && hasApiKey then
          some (judgeCart items allAddedItems allFailedItems allActualCartItems judgeResponse)
        else none
      originalItems := items
      addedItems := allAddedItems
      failedItems := allFailedItems }

/- Definitions taken from the specification's wording, for comparison with
the code-derived definitions above. -/

/-- Case-insensitive substring occurrence as the specification words it:
the pattern occurs in the string when both are compared lowercased. -/
def ciContains (s pat : String) : Bool :=
  containsList (pat.toList.map Char.toLower) (s.toList.map Char.toLower)

/-- Multiplier rule as the specification words it (section 4.2 steps 3 and
4): on differing units only the fixed kg to g conversion is applied, any
other mismatch gives 1; on a common scale the ratio is ceiled only when the
desired amount exceeds the product amount, otherwise 1. -/
def specMultiplier (desiredAmount : Rat) (desiredUnit : String)
    (productAmount : Rat) (productUnit : String) : Int :=
  if desiredUnit = productUnit then
    if desiredAmount > productAmount then Int.ceil (desiredAmount / productAmount) else 1
  else if desiredUnit = "kg" ∧ productUnit = "g" then
    if desiredAmount * 1000 > productAmount then Int.ceil (desiredAmount * 1000 / productAmount)
    else 1
  else if desiredUnit = "g" ∧ productUnit = "kg" then
    if desiredAmount > productAmount * 1000 then Int.ceil (desiredAmount / (productAmount * 1000))
    else 1
  else 1

/-- Normalization as the specification words it: a request carrying a bare
url or query is rewritten into a one-element alternatives list before
resolution. -/
def normalizeItem (item : CartItem) : CartItem :=
  if truthy item.url then
    { item with alternatives := some [⟨AltType.url, item.url.getD ""⟩] }
  else if truthy item.query then
    { item with alternatives := some [⟨AltType.query, item.query.getD ""⟩] }
  else item

/- Helper lemmas shared by several claims. -/

/-- The ceiling of a ratio in the half-open interval zero to one is one. -/
theorem ceil_eq_one_of_pos_le_one {q : Rat} (h0 : 0 < q) (h1 : q ≤ 1) : Int.ceil q = 1 := by
  have hle : Int.ceil q ≤ 1 := Int.ceil_le.mpr (by exact_mod_cast h1)
  have hpos : 0 < Int.ceil q := Int.ceil_pos.mpr h0
  omega

/-- Unfolding lemma: the item loop distributes over list append. -/
theorem processSiteItems_append (driver : SiteDriver) (site : String)
    (xs ys : List CartItem) :
    processSiteItems driver site (xs ++ ys) =
      { addedItems := (processSiteItems driver site xs).addedItems ++
          (processSiteItems driver site ys).addedItems
        failedItems := (processSiteItems driver site xs).failedItems ++
          (processSiteItems driver site ys).failedItems
        attempts := (processSiteItems driver site xs).attempts ++
          (processSiteItems driver site ys).attempts } := by
  induction xs with
  | nil => simp [processSiteItems]
  | cons it rest ih => simp [processSiteItems, ih, List.append_assoc]

/-- When every alternative's dispatch fails, the alternatives loop records
no added item, exactly one failed item whose identifier comes from the first
alternative, and attempts every candidate with the same quantity; the error
string recorded is the error of the last alternative in the list (when the
list is non-empty) or the incoming lastError otherwise. -/
theorem tryAlternatives_all_fail (driver : SiteDriver) (site : String) (qty : Int)
    (firstAlt : Alt) :
    ∀ (alts : List Alt) (lastError : Option String) (lastAlt : Alt) (e : String),
      (∀ alt ∈ alts, exceptIsOk (dispatch driver alt qty) = false) →
      alts.getLast? = some lastAlt →
      dispatch driver lastAlt qty = Except.error e →
      tryAlternatives driver site qty firstAlt lastError alts =
        { addedItems := []
          failedItems := [{ query := if firstAlt.type = AltType.query then some firstAlt.value else none
                            url := if firstAlt.type = AltType.url then some firstAlt.value else none
                            reason := classifyReason e
                            details := some e
                            site := site }]
          attempts := alts.map (fun a => (a, qty)) } := by
  intro alts
  induction alts with
  | nil => intro lastError lastAlt e _ hlast _; simp at hlast
  | cons a rest ih =>
    intro lastError lastAlt e hfail hlast hdisp
    have hafail : exceptIsOk (dispatch driver a qty) = false := hfail a (by simp)
    cases hda : dispatch driver a qty with
    | ok r => rw [hda] at hafail; simp [exceptIsOk] at hafail
    | error ea =>
      cases rest with
      | nil =>
        have haeq : a = lastAlt := by simpa using hlast
        subst haeq
        rw [hda] at hdisp
        cases hdisp
        simp [tryAlternatives, hda, Option.getD]
      | cons b rest2 =>
        have hlast2 : (b :: rest2).getLast? = some lastAlt := by
          rw [← hlast]; rfl
        have hfail2 : ∀ alt ∈ b :: rest2, exceptIsOk (dispatch driver alt qty) = false := by
          intro alt halt; exact hfail alt (by simp [halt])
        have hrec := ih (some ea) lastAlt e hfail2 hlast2 hdisp
        rw [tryAlternatives, hda]
        dsimp only
        rw [hrec]
        simp

/-- Every candidate attempt the alternatives loop dispatches carries the
quantity it was given. -/
theorem tryAlternatives_attempts_qty (driver : SiteDriver) (site : String) (qty : Int)
    (firstAlt : Alt) :
    ∀ (alts : List Alt) (lastError : Option String) (p : Alt × Int),
      p ∈ (tryAlternatives driver site qty firstAlt lastError alts).attempts → p.2 = qty := by
  intro alts
  induction alts with
  | nil => intro lastError p hp; simp [tryAlternatives] at hp
  | cons a rest ih =>
    intro lastError p hp
    simp only [tryAlternatives] at hp
    cases hda : dispatch driver a qty with
    | ok r =>
      rw [hda] at hp; simp at hp; rw [hp]
    | error ea =>
      rw [hda] at hp
      simp at hp
      rcases hp with hp | hp
      · rw [hp]
      · exact ih (some ea) p hp

/-- Every candidate attempt processItem dispatches carries the item's
requested quantity. -/
theorem processItem_attempts_qty (driver : SiteDriver) (site : String) (item : CartItem)
    (p : Alt × Int) (hp : p ∈ (processItem driver site item).attempts) :
    p.2 = qtyOrOne item.qty := by
  unfold processItem at hp
  rcases halts : item.alternatives with _ | alts
  · rw [halts] at hp
    simp only at hp
    split at hp <;> [skip; split at hp]
    · split at hp <;> simp at hp <;> simp [hp]
    · split at hp <;> simp at hp <;> simp [hp]
    · simp at hp
  · rw [halts] at hp
    cases alts with
    | nil =>
      simp only at hp
      split at hp <;> [skip; split at hp]
      · split at hp <;> simp at hp <;> simp [hp]
      · split at hp <;> simp at hp <;> simp [hp]
      · simp at hp
    | cons firstAlt rest =>
      exact tryAlternatives_attempts_qty driver site (qtyOrOne item.qty) firstAlt
        (firstAlt :: rest) none p hp

/-- Claim C7: every error detail string is classified by case-insensitive
substring match: out_of_stock wins, otherwise not_found or not found give
NotFound, and everything else is Error. -/
theorem classifyReason_ci_substring (s : String) :
    (classifyReason s = FailureReason.out_of_stock ↔ ciContains s "out_of_stock" = true) ∧
    (classifyReason s = FailureReason.not_found ↔
      (ciContains s "out_of_stock" = false ∧
        (ciContains s "not_found" = true ∨ ciContains s "not found" = true))) ∧
    (classifyReason s = FailureReason.error ↔
      (ciContains s "out_of_stock" = false ∧ ciContains s "not_found" = false ∧
        ciContains s "not found" = false)) := by
  have hoos : ciContains s "out_of_stock" = includesSub (lowerStr s) "out_of_stock" := by
    unfold ciContains includesSub lowerStr
    rw [show "out_of_stock".toList.map Char.toLower = "out_of_stock".toList by decide]
    rfl
  have hnf : ciContains s "not_found" = includesSub (lowerStr s) "not_found" := by
    unfold ciContains includesSub lowerStr
    rw [show "not_found".toList.map Char.toLower = "not_found".toList by decide]
    rfl
  have hnfs : ciContains s "not found" = includesSub (lowerStr s) "not found" := by
    unfold ciContains includesSub lowerStr
    rw [show "not found".toList.map Char.toLower = "not found".toList by decide]
    rfl
  rw [hoos, hnf, hnfs]
  unfold classifyReason
  cases hb1 : includesSub (lowerStr s) "out_of_stock" <;>
    cases hb2 : includesSub (lowerStr s) "not_found" <;>
      cases hb3 : includesSub (lowerStr s) "not found" <;>
        simp [hb1, hb2, hb3]

/-- Claim C3: when every candidate of a request fails, processItem appends
no added record and exactly one FailedItem whose identifier (query or url,
chosen by the candidate kind) comes from the first candidate while reason
and details are classified from the last attempted candidate's error, and
every candidate was attempted in order with the request's quantity. -/
theorem processItem_all_candidates_fail (driver : SiteDriver) (site : String)
    (item : CartItem) (alts : List Alt) (firstAlt lastAlt : Alt) (e : String)
    (halts : item.alternatives = some alts)
    (hfirst : alts.head? = some firstAlt)
    (hlast : alts.getLast? = some lastAlt)
    (hfail : ∀ alt ∈ alts, exceptIsOk (dispatch driver alt (qtyOrOne item.qty)) = false)
    (hlasterr : dispatch driver lastAlt (qtyOrOne item.qty) = Except.error e) :
    processItem driver site item =
      { addedItems := []
        failedItems := [{ query := if firstAlt.type = AltType.query then some firstAlt.value else none
                          url := if firstAlt.type = AltType.url then some firstAlt.value else none
                          reason := classifyReason e
                          details := some e
                          site := site }]
        attempts := alts.map (fun a => (a, qtyOrOne item.qty)) } := by
  cases alts with
  | nil => simp at hfirst
  | cons a rest =>
    have ha : a = firstAlt := by simpa using hfirst
    subst ha
    have hu : processItem driver site item =
        tryAlternatives driver site (qtyOrOne item.qty) a none (a :: rest) := by
      unfold processItem
      rw [halts]
    rw [hu]
    exact tryAlternatives_all_fail driver site (qtyOrOne item.qty) a (a :: rest) none
      lastAlt e hfail hlast hlasterr

/-- Driver fixture for the claim C3 witness: both operations always throw. -/
def c3Driver : SiteDriver :=
  { addByUrl := fun u _ => Except.error ("OUT_OF_STOCK: " ++ u)
    addByQuery := fun s _ => Except.error ("NOT_FOUND: No products found for " ++ s) }

/-- Item fixture for the claim C3 witness: two candidates, quantity 2. -/
def c3Item : CartItem :=
  { site := "barbora"
    qty := some 2
    alternatives := some [⟨AltType.url, "https://x/a"⟩, ⟨AltType.query, "milk"⟩] }

/-- Witness for claim C3 at a concrete failing run: the single FailedItem
carries the first candidate's url identifier and the classification of the
last candidate's not-found error. -/
theorem processItem_all_candidates_fail_witness :
    processItem c3Driver "barbora" c3Item =
      { addedItems := []
        failedItems := [{ query := none
                          url := some "https://x/a"
                          reason := FailureReason.not_found
                          details := some "NOT_FOUND: No products found for milk"
                          site := "barbora" }]
        attempts := [(⟨AltType.url, "https://x/a"⟩, 2), (⟨AltType.query, "milk"⟩, 2)] } := by
  rw [processItem_all_candidates_fail c3Driver "barbora" c3Item
    [⟨AltType.url, "https://x/a"⟩, ⟨AltType.query, "milk"⟩]
    ⟨AltType.url, "https://x/a"⟩ ⟨AltType.query, "milk"⟩
    "NOT_FOUND: No products found for milk" rfl rfl (by decide) (by decide) rfl]
  decide

/-- Claim C4: when the first candidate fails and the second succeeds,
processItem records exactly one AddedItem carrying the succeeding
candidate's product label and the request's quantity, no FailedItem, stops
after the succeeding candidate, and every attempt uses the same quantity. -/
theorem processItem_fallback_success (driver : SiteDriver) (site : String)
    (item : CartItem) (altA altB : Alt) (rest : List Alt) (eA : String) (r : AddResult)
    (halts : item.alternatives = some (altA :: altB :: rest))
    (hA : dispatch driver altA (qtyOrOne item.qty) = Except.error eA)
    (hB : dispatch driver altB (qtyOrOne item.qty) = Except.ok r) :
    (processItem driver site item =
      { addedItems := [{ originalRequest := altA.value
                         productAdded := r.productName
                         quantityRequested := qtyOrOne item.qty
                         quantityAdded := r.quantityAdded
                         site := site }]
        failedItems := []
        attempts := [(altA, qtyOrOne item.qty), (altB, qtyOrOne item.qty)] }) ∧
    (∀ p ∈ (processItem driver site item).attempts, p.2 = qtyOrOne item.qty) := by
  constructor
  · have hu : processItem driver site item =
        tryAlternatives driver site (qtyOrOne item.qty) altA none (altA :: altB :: rest) := by
      unfold processItem
      rw [halts]
    rw [hu, tryAlternatives, hA]
    dsimp only
    rw [tryAlternatives, hB]
  · intro p hp
    exact processItem_attempts_qty driver site item p hp

/-- Driver fixture for the claim C4 witness: urls are out of stock, queries
succeed with the requested quantity. -/
def c4Driver : SiteDriver :=
  { addByUrl := fun u _ => Except.error ("OUT_OF_STOCK: " ++ u)
    addByQuery := fun _ q => Except.ok { productName := "Pienas 1L", quantityAdded := q } }

/-- Item fixture for the claim C4 witness: a url candidate then a query
candidate, quantity 2. -/
def c4Item : CartItem :=
  { site := "barbora"
    qty := some 2
    alternatives := some [⟨AltType.url, "https://x/p"⟩, ⟨AltType.query, "pienas"⟩] }

/-- Witness for claim C4 at a concrete fallback run. -/
theorem processItem_fallback_success_witness :
    processItem c4Driver "barbora" c4Item =
      { addedItems := [{ originalRequest := "https://x/p"
                         productAdded := "Pienas 1L"
                         quantityRequested := 2
                         quantityAdded := 2
                         site := "barbora" }]
        failedItems := []
        attempts := [(⟨AltType.url, "https://x/p"⟩, 2), (⟨AltType.query, "pienas"⟩, 2)] } :=
  (processItem_fallback_success c4Driver "barbora" c4Item
    ⟨AltType.url, "https://x/p"⟩ ⟨AltType.query, "pienas"⟩ []
    "OUT_OF_STOCK: https://x/p" { productName := "Pienas 1L", quantityAdded := 2 }
    rfl rfl rfl).1

/-- Claim C8: one request exhausting all of its candidates contributes
exactly one FailedItem and leaves the records of every other request in the
batch unchanged, and runJob always terminates with the structured report
whose originalItems echo the input and whose judgments are present exactly
when verification ran. -/
theorem batch_failure_isolated (driver : SiteDriver) (site : String)
    (xs ys : List CartItem) (item : CartItem) (alts : List Alt) (lastAlt : Alt) (e : String)
    (halts : item.alternatives = some alts)
    (hlast : alts.getLast? = some lastAlt)
    (hfail : ∀ alt ∈ alts, exceptIsOk (dispatch driver alt (qtyOrOne item.qty)) = false)
    (hlasterr : dispatch driver lastAlt (qtyOrOne item.qty) = Except.error e) :
    ((processSiteItems driver site (xs ++ item :: ys)).failedItems =
        (processSiteItems driver site xs).failedItems ++
          (processItem driver site item).failedItems ++
          (processSiteItems driver site ys).failedItems) ∧
    ((processItem driver site item).failedItems.length = 1) ∧
    ((processSiteItems driver site (xs ++ item :: ys)).addedItems =
        (processSiteItems driver site xs).addedItems ++
          (processSiteItems driver site ys).addedItems) ∧
    (∀ (drivers : String → SiteDriver)
        (scrape : String → Except String (List ScrapedCartItem))
        (judgeResponse : Except String JudgeJson) (useOpenAI hasApiKey : Bool)
        (items : List CartItem),
      (runJob drivers scrape judgeResponse useOpenAI hasApiKey items).originalItems =
          (if items.isEmpty then [] else items) ∧
      ((runJob drivers scrape judgeResponse useOpenAI hasApiKey items).judgments.isSome =
          (useOpenAI && hasApiKey && !items.isEmpty))) := by
  have hitem : (processItem driver site item).failedItems.length = 1 ∧
      (processItem driver site item).addedItems = [] := by
    cases alts with
    | nil => simp at hlast
    | cons a rest =>
      have hu : processItem driver site item =
          tryAlternatives driver site (qtyOrOne item.qty) a none (a :: rest) := by
        unfold processItem
        rw [halts]
      rw [hu, tryAlternatives_all_fail driver site (qtyOrOne item.qty) a (a :: rest) none
        lastAlt e hfail hlast hlasterr]
      simp
  have hsplit := processSiteItems_append driver site xs (item :: ys)
  have hcons : processSiteItems driver site (item :: ys) =
      { addedItems := (processItem driver site item).addedItems ++
          (processSiteItems driver site ys).addedItems
        failedItems := (processItem driver site item).failedItems ++
          (processSiteItems driver site ys).failedItems
        attempts := (processItem driver site item).attempts ++
          (processSiteItems driver site ys).attempts } := rfl
  refine ⟨?_, hitem.1, ?_, ?_⟩
  · rw [hsplit, hcons]
    simp [List.append_assoc]
  · rw [hsplit, hcons]
    simp [hitem.2]
  · intro drivers scrape judgeResponse useOpenAI hasApiKey items
    by_cases h : items.isEmpty <;>
      cases useOpenAI <;> cases hasApiKey <;> simp [runJob, h]

/-- Driver fixture for the claim C8 witness: every query fails, urls
succeed. -/
def c8Driver : SiteDriver :=
  { addByUrl := fun _ q => Except.ok { productName := "Duona", quantityAdded := q }
    addByQuery := fun s _ => Except.error ("NOT_FOUND: " ++ s) }

/-- Fixture items for the claim C8 witness: a succeeding url request, an
exhausted query request, and another succeeding url request. -/
def c8Good1 : CartItem := { site := "barbora", url := some "https://x/1" }

/-- Second fixture item for the claim C8 witness. -/
def c8Bad : CartItem :=
  { site := "barbora", alternatives := some [⟨AltType.query, "q1"⟩, ⟨AltType.query, "q2"⟩] }

/-- Third fixture item for the claim C8 witness. -/
def c8Good2 : CartItem := { site := "barbora", url := some "https://x/2" }

/-- Witness for claim C8 at a concrete batch: the exhausted middle request
contributes one FailedItem while both neighbours are still added, and the
run report fields are present. -/
theorem batch_failure_isolated_witness :
    ((processSiteItems c8Driver "barbora" ([c8Good1] ++ c8Bad :: [c8Good2])).failedItems =
        (processSiteItems c8Driver "barbora" [c8Good1]).failedItems ++
          (processItem c8Driver "barbora" c8Bad).failedItems ++
          (processSiteItems c8Driver "barbora" [c8Good2]).failedItems) ∧
    ((processItem c8Driver "barbora" c8Bad).failedItems.length = 1) ∧
    ((processSiteItems c8Driver "barbora" ([c8Good1] ++ c8Bad :: [c8Good2])).addedItems =
        (processSiteItems c8Driver "barbora" [c8Good1]).addedItems ++
          (processSiteItems c8Driver "barbora" [c8Good2]).addedItems) ∧
    ((runJob (fun _ => c8Driver) (fun _ => Except.ok []) (Except.error "down") false false
        [c8Good1, c8Bad, c8Good2]).originalItems =
      (if ([c8Good1, c8Bad, c8Good2] : List CartItem).isEmpty then []
       else [c8Good1, c8Bad, c8Good2])) := by
  have h := batch_failure_isolated c8Driver "barbora" [c8Good1] [c8Good2] c8Bad
    [⟨AltType.query, "q1"⟩, ⟨AltType.query, "q2"⟩] ⟨AltType.query, "q2"⟩
    "NOT_FOUND: q2" rfl (by decide) (by decide) rfl
  exact ⟨h.1, h.2.1, h.2.2.1,
    (h.2.2.2 (fun _ => c8Driver) (fun _ => Except.ok []) (Except.error "down") false false
      [c8Good1, c8Bad, c8Good2]).1⟩

/-- Request fixture for the claim C1 counterexample. -/
def c1Request : CartItem := { site := "barbora", query := some "milk", qty := some 2 }

/-- Added-record fixture for the claim C1 counterexample. -/
def c1Added : AddedItem :=
  { originalRequest := "milk", productAdded := "Beer 0.5L", quantityRequested := 2
    quantityAdded := 1, site := "barbora" }

/-- Scraped-line fixture for the claim C1 counterexample: the cart really
holds quantity 2. -/
def c1Actual : ScrapedCartItem := { productName := "Beer 0.5L", quantity := 2, unit := "units" }

/-- Collaborator judgment fixture for the claim C1 counterexample: success
status, out-of-band score 150, reported quantity 1 against scraped 2. -/
def c1Bad : JudgmentItem :=
  { originalRequest := "milk", status := "success", productAdded := some "Beer 0.5L"
    quantityRequested := 2, quantityAdded := some 1, matchScore := 150, notes := [] }

/-- Counterexample to claim C1: judgeCart returns a collaborator judgment
verbatim even though its matchScore lies outside the 0 to 100 bands and its
status is success while the reported quantity (1) differs from the scraped
cart quantity (2) — no clamping or status derivation is enforced. -/
theorem judgeCart_no_validation_cex :
    judgeCart [c1Request] [c1Added] [] [c1Actual]
        (Except.ok (JudgeJson.objWithItems (JudgeJson.arrOf [c1Bad]))) = [c1Bad] ∧
    c1Bad.status = "success" ∧
    c1Bad.matchScore = 150 ∧
    ¬(c1Bad.matchScore ≤ 100) ∧
    c1Bad.quantityAdded = some 1 ∧
    c1Actual.quantity = 2 := by
  refine ⟨rfl, rfl, rfl, ?_, rfl, rfl⟩
  rw [show c1Bad.matchScore = 150 from rfl]
  norm_num

/-- Claim C1 amended: judgeCart performs no clamping or validation of the
collaborator's scores or statuses: its output is fully determined by the
response — independent of the requests, records and scraped cart — and an
array response (bare or under the items field) is returned verbatim. -/
theorem judgeCart_passthrough :
    (∀ (o₁ o₂ : List CartItem) (a₁ a₂ : List AddedItem) (f₁ f₂ : List FailedItem)
        (c₁ c₂ : List ScrapedCartItem) (r : Except String JudgeJson),
      judgeCart o₁ a₁ f₁ c₁ r = judgeCart o₂ a₂ f₂ c₂ r) ∧
    (∀ (o : List CartItem) (a : List AddedItem) (f : List FailedItem)
        (c : List ScrapedCartItem) (l : List JudgmentItem),
      judgeCart o a f c (Except.ok (JudgeJson.arrOf l)) = l ∧
      judgeCart o a f c (Except.ok (JudgeJson.objWithItems (JudgeJson.arrOf l))) = l) := by
  constructor
  · intro o₁ o₂ a₁ a₂ f₁ f₂ c₁ c₂ r
    cases r <;> rfl
  · intro o a f c l
    exact ⟨rfl, rfl⟩

/-- Request fixture for the claim C9 counterexample. -/
def c9Request : CartItem := { site := "barbora", query := some "duona" }

/-- Collaborator judgment fixture for the claim C9 counterexample. -/
def c9FailedJ : JudgmentItem :=
  { originalRequest := "duona", status := "failed", productAdded := none
    quantityRequested := 1, quantityAdded := none, matchScore := 0, notes := ["not added"] }

/-- Counterexample to claim C9: with an empty actual cart snapshot judgeCart
does not return an empty judgment set — the collaborator is still consulted
and its judgments (here one failed judgment) are returned as is. -/
theorem judgeCart_empty_cart_cex :
    judgeCart [c9Request] [] [] [] (Except.ok (JudgeJson.arrOf [c9FailedJ])) = [c9FailedJ] ∧
    judgeCart [c9Request] [] [] [] (Except.ok (JudgeJson.arrOf [c9FailedJ])) ≠ [] := by
  refine ⟨rfl, ?_⟩
  rw [show judgeCart [c9Request] [] [] [] (Except.ok (JudgeJson.arrOf [c9FailedJ])) =
    [c9FailedJ] from rfl]
  simp

/-- Claim C9 amended: the empty judgment set arises exactly from a failed
collaborator interaction (a thrown error or an unusable non-array response),
not from an empty actualCartLines list — with an empty snapshot judgeCart
still returns the response array verbatim; in processSite a scrape failure
only empties actualCart and leaves the item records untouched, and no
per-site unverified label exists anywhere in the result. -/
theorem judgeCart_error_only_empty :
    (∀ (o : List CartItem) (a : List AddedItem) (f : List FailedItem)
        (c : List ScrapedCartItem) (e : String),
      judgeCart o a f c (Except.error e) = []) ∧
    (∀ (o : List CartItem) (a : List AddedItem) (f : List FailedItem)
        (c : List ScrapedCartItem),
      judgeCart o a f c (Except.ok JudgeJson.objNoItems) = []) ∧
    (∀ (o : List CartItem) (a : List AddedItem) (f : List FailedItem)
        (l : List JudgmentItem),
      judgeCart o a f [] (Except.ok (JudgeJson.arrOf l)) = l) ∧
    (∀ (driver : SiteDriver) (e : String) (site : String) (items : List CartItem),
      (processSite driver (Except.error e) site items).actualCart = [] ∧
      (processSite driver (Except.error e) site items).failedItems =
        (processSiteItems driver site items).failedItems ∧
      (processSite driver (Except.error e) site items).addedItems =
        (processSiteItems driver site items).addedItems) :=
  ⟨fun _ _ _ _ _ => rfl, fun _ _ _ _ => rfl, fun _ _ _ _ => rfl,
   fun _ _ _ _ => ⟨rfl, rfl, rfl⟩⟩

/-- Bare-query item fixture for claim C2. -/
def c2Item : CartItem := { site := "barbora", query := some "milk", qty := some 1 }

/-- Driver fixture for claim C2: every dispatch fails. -/
def c2Driver : SiteDriver :=
  { addByUrl := fun _ _ => Except.error "ERR"
    addByQuery := fun s _ => Except.error ("NOT_FOUND: " ++ s) }

/-- Counterexample to claim C2: a bare query request reaches resolution with
its alternatives still absent — no one-element alternatives list is ever
synthesized — and it is resolved anyway through the separate single-item
branch, as the recorded FailedItem shows. -/
theorem no_alternatives_synthesis_cex :
    ([c2Item].filter keepItem = [c2Item]) ∧
    c2Item.alternatives = none ∧
    (runJob (fun _ => c2Driver) (fun _ => Except.ok []) (Except.error "down") false false
        [c2Item]).failedItems =
      [{ query := some "milk", url := none, reason := FailureReason.not_found
         details := some "NOT_FOUND: milk", site := "barbora" }] := by
  refine ⟨by decide, rfl, by decide⟩

/-- Claim C2 amended: no alternatives entry is synthesized — a bare url or
bare query request keeps its empty alternatives through resolution and is
handled by the dedicated single-item branch of processItem, whose observable
outcome coincides with that of the one-element alternatives list the
specification describes (normalizeItem). -/
theorem processItem_bare_equiv_normalized (driver : SiteDriver) (site : String)
    (item : CartItem)
    (halts : item.alternatives = none ∨ item.alternatives = some [])
    (hbare : (item.query = none ∧ truthy item.url = true) ∨
      (item.url = none ∧ truthy item.query = true)) :
    (processItem driver site item = processItem driver site (normalizeItem item)) ∧
    (∃ alt, (normalizeItem item).alternatives = some [alt]) := by
  obtain ⟨isite, iurl, iquery, iqty, ialts⟩ := item
  rcases hbare with ⟨hq, hu⟩ | ⟨hu, hq⟩
  · simp only at hq hu
    subst hq
    cases iurl with
    | none => simp [truthy] at hu
    | some u =>
      have hne : ¬(u = "") := by simpa [truthy] using hu
      have hne2 : u ≠ "" := hne
      refine ⟨?_, ⟨⟨AltType.url, u⟩, ?_⟩⟩
      · rcases halts with h | h <;> simp only at h <;> subst h <;>
          cases hres : driver.addByUrl u (qtyOrOne iqty) <;>
            simp [processItem, normalizeItem, tryAlternatives, dispatch, truthy, jsOrStr,
              hne, hres]
      · simp [normalizeItem, truthy, hne]
  · simp only at hq hu
    subst hu
    cases iquery with
    | none => simp [truthy] at hq
    | some q =>
      have hne : ¬(q = "") := by simpa [truthy] using hq
      refine ⟨?_, ⟨⟨AltType.query, q⟩, ?_⟩⟩
      · rcases halts with h | h <;> simp only at h <;> subst h <;>
          cases hres : driver.addByQuery q (qtyOrOne iqty) <;>
            simp [processItem, normalizeItem, tryAlternatives, dispatch, truthy, jsOrStr,
              hne, hres]
      · simp [normalizeItem, truthy, hne]

/-- Witness for the amended claim C2 at a concrete bare-query item: the
single-item branch and the synthesized one-element alternatives list agree. -/
theorem processItem_bare_equiv_normalized_witness :
    (processItem c2Driver "barbora" c2Item =
      processItem c2Driver "barbora" (normalizeItem c2Item)) ∧
    (∃ alt, (normalizeItem c2Item).alternatives = some [alt]) :=
  processItem_bare_equiv_normalized c2Driver "barbora" c2Item (Or.inl rfl)
    (Or.inr ⟨rfl, by decide⟩)

/-- Helper: the addedItems field of runJob is determined by the valid items
alone. -/
theorem runJob_addedItems_eq (drivers : String → SiteDriver)
    (scrape : String → Except String (List ScrapedCartItem))
    (judgeResponse : Except String JudgeJson) (useOpenAI hasApiKey : Bool)
    (items : List CartItem) :
    (runJob drivers scrape judgeResponse useOpenAI hasApiKey items).addedItems =
      runAdded drivers scrape (items.filter keepItem) := by
  unfold runJob
  by_cases h : items.isEmpty
  · have hnil : items = [] := by simpa using h
    subst hnil
    simp [runAdded, firstOccurrences, firstOccurrencesAux]
  · simp [h]

/-- Helper: the failedItems field of runJob is determined by the valid items
alone. -/
theorem runJob_failedItems_eq (drivers : String → SiteDriver)
    (scrape : String → Except String (List ScrapedCartItem))
    (judgeResponse : Except String JudgeJson) (useOpenAI hasApiKey : Bool)
    (items : List CartItem) :
    (runJob drivers scrape judgeResponse useOpenAI hasApiKey items).failedItems =
      runFailed drivers scrape (items.filter keepItem) := by
  unfold runJob
  by_cases h : items.isEmpty
  · have hnil : items = [] := by simpa using h
    subst hnil
    simp [runFailed, firstOccurrences, firstOccurrencesAux]
  · simp [h]

/-- Claim C10: an item whose site is not a driver key, or which offers no
url, query, or non-empty alternatives, is excluded from every site group (so
it is dispatched to no driver and yields neither an added nor a failed
record — the run outcome equals that of the list without it), yet it is
still returned unchanged inside originalItems. -/
theorem runJob_skips_invalid (drivers : String → SiteDriver)
    (scrape : String → Except String (List ScrapedCartItem))
    (judgeResponse : Except String JudgeJson) (useOpenAI hasApiKey : Bool)
    (xs ys : List CartItem) (item : CartItem) (hskip : keepItem item = false) :
    ((xs ++ item :: ys).filter keepItem = (xs ++ ys).filter keepItem) ∧
    ((runJob drivers scrape judgeResponse useOpenAI hasApiKey (xs ++ item :: ys)).addedItems =
      (runJob drivers scrape judgeResponse useOpenAI hasApiKey (xs ++ ys)).addedItems) ∧
    ((runJob drivers scrape judgeResponse useOpenAI hasApiKey (xs ++ item :: ys)).failedItems =
      (runJob drivers scrape judgeResponse useOpenAI hasApiKey (xs ++ ys)).failedItems) ∧
    ((runJob drivers scrape judgeResponse useOpenAI hasApiKey (xs ++ item :: ys)).originalItems =
      xs ++ item :: ys) := by
  have hfilter : (xs ++ item :: ys).filter keepItem = (xs ++ ys).filter keepItem := by
    simp [List.filter_append, List.filter_cons, hskip]
  refine ⟨hfilter, ?_, ?_, ?_⟩
  · rw [runJob_addedItems_eq, runJob_addedItems_eq, hfilter]
  · rw [runJob_failedItems_eq, runJob_failedItems_eq, hfilter]
  · have hne : (xs ++ item :: ys).isEmpty = false := by
      cases xs <;> simp
    simp [runJob, hne]

/-- Valid companion item for the claim C10 witness. -/
def c10Valid : CartItem := { site := "barbora", url := some "https://x/v" }

/-- Invalid item for the claim C10 witness: unsupported site. -/
def c10Invalid : CartItem := { site := "amazon", query := some "milk" }

/-- Driver fixture for the claim C10 witness. -/
def c10Driver : SiteDriver :=
  { addByUrl := fun _ q => Except.ok { productName := "V", quantityAdded := q }
    addByQuery := fun _ q => Except.ok { productName := "Q", quantityAdded := q } }

/-- Witness for claim C10 at a concrete run: the unsupported-site item is
filtered from grouping, the outcome equals the run without it, and it still
appears in originalItems. -/
theorem runJob_skips_invalid_witness :
    (([c10Valid] ++ c10Invalid :: []).filter keepItem = ([c10Valid] ++ []).filter keepItem) ∧
    ((runJob (fun _ => c10Driver) (fun _ => Except.ok []) (Except.error "down") false false
        ([c10Valid] ++ c10Invalid :: [])).addedItems =
      (runJob (fun _ => c10Driver) (fun _ => Except.ok []) (Except.error "down") false false
        ([c10Valid] ++ [])).addedItems) ∧
    ((runJob (fun _ => c10Driver) (fun _ => Except.ok []) (Except.error "down") false false
        ([c10Valid] ++ c10Invalid :: [])).failedItems =
      (runJob (fun _ => c10Driver) (fun _ => Except.ok []) (Except.error "down") false false
        ([c10Valid] ++ [])).failedItems) ∧
    ((runJob (fun _ => c10Driver) (fun _ => Except.ok []) (Except.error "down") false false
        ([c10Valid] ++ c10Invalid :: [])).originalItems = [c10Valid] ++ c10Invalid :: []) :=
  runJob_skips_invalid (fun _ => c10Driver) (fun _ => Except.ok []) (Except.error "down")
    false false [c10Valid] [] c10Invalid (by decide)

/-- Helper: with successful extraction on both sides and positive amounts,
the code's multiplier equals the specification's rule. -/
theorem calcQM_matches_spec (dq pt : String) (da pa : Rat) (du pu : String)
    (hd : scanQuantity dq.toList = some (da, du))
    (hp : scanQuantity pt.toList = some (pa, pu))
    (hda : 0 < da) (hpa : 0 < pa) :
    calculateQuantityMultiplier dq pt = some (specMultiplier da du pa pu) := by
  unfold calculateQuantityMultiplier specMultiplier
  rw [hd, hp]
  dsimp only
  by_cases hdup : du = pu
  · rw [if_neg (by simp [hdup]), if_pos hdup]
    by_cases hgt : da > pa
    · rw [if_pos hgt, if_pos hgt]
      simp [jsCeilDiv, hpa.ne']
    · rw [if_neg hgt, if_neg hgt]
  · rw [if_pos hdup, if_neg hdup]
    by_cases hkg : du = "kg" ∧ pu = "g"
    · rw [if_pos hkg, if_pos hkg]
      by_cases hgt : da * 1000 > pa
      · rw [if_pos hgt]
        simp [jsCeilDiv, hpa.ne']
      · rw [if_neg hgt]
        have h1 : (0:Rat) < da * 1000 / pa := by positivity
        have h2 : da * 1000 / pa ≤ 1 := by
          rw [div_le_one hpa]
          linarith [not_lt.mp hgt]
        simp [jsCeilDiv, hpa.ne', ceil_eq_one_of_pos_le_one h1 h2]
    · rw [if_neg hkg, if_neg hkg]
      by_cases hg : du = "g" ∧ pu = "kg"
      · rw [if_pos hg, if_pos hg]
        have hp1000 : (0:Rat) < pa * 1000 := by positivity
        by_cases hgt : da > pa * 1000
        · rw [if_pos hgt]
          simp [jsCeilDiv, hp1000.ne']
        · rw [if_neg hgt]
          have h1 : (0:Rat) < da / (pa * 1000) := by positivity
          have h2 : da / (pa * 1000) ≤ 1 := by
            rw [div_le_one hp1000]
            linarith [not_lt.mp hgt]
          simp [jsCeilDiv, hp1000.ne', ceil_eq_one_of_pos_le_one h1 h2]
      · rw [if_neg hg, if_neg hg]

/-- Helper: the specification's multiplier rule yields an integer at least
one whenever both amounts are positive. -/
theorem specMultiplier_ge_one (da pa : Rat) (du pu : String)
    (hda : 0 < da) (hpa : 0 < pa) : 1 ≤ specMultiplier da du pa pu := by
  unfold specMultiplier
  split_ifs
  · have h := Int.ceil_pos.mpr (show (0:Rat) < da / pa by positivity)
    omega
  · norm_num
  · have h := Int.ceil_pos.mpr (show (0:Rat) < da * 1000 / pa by positivity)
    omega
  · norm_num
  · have h := Int.ceil_pos.mpr (show (0:Rat) < da / (pa * 1000) by positivity)
    omega
  · norm_num
  · norm_num

/-- Counterexample to claim C5: a zero extracted amount is not treated as
invalid input — desired 0g against product 1kg takes the g to kg conversion
branch and returns Math.ceil of zero, that is 0, which is not at least 1. -/
theorem calculateQuantityMultiplier_zero_cex :
    calculateQuantityMultiplier "0g" "1kg" = some 0 ∧
    ¬(∃ n, calculateQuantityMultiplier "0g" "1kg" = some n ∧ 1 ≤ n) := by
  have h0 : scanQuantity "0g".toList = some (((0:Nat):Rat), "g") := rfl
  have h1 : scanQuantity "1kg".toList = some (((1:Nat):Rat), "kg") := rfl
  have hmain : calculateQuantityMultiplier "0g" "1kg" = some 0 := by
    unfold calculateQuantityMultiplier
    rw [h0, h1]
    dsimp only
    rw [if_pos (by decide : ("g":String) ≠ "kg")]
    rw [if_neg (by decide : ¬(("g":String) = "kg" ∧ ("kg":String) = "g"))]
    rw [if_pos (show ("g":String) = "g" ∧ ("kg":String) = "kg" from ⟨rfl, rfl⟩)]
    unfold jsCeilDiv
    rw [if_neg (by norm_num : ¬(((1:Nat):Rat) * 1000 = 0))]
    norm_num
  refine ⟨hmain, ?_⟩
  rintro ⟨n, hn, hge⟩
  rw [hmain] at hn
  injection hn with h
  omega

/-- Claim C5 amended: extraction failure on either side yields multiplier 1,
and whenever both extracted amounts are positive the multiplier is an
integer at least 1; but a zero extracted amount is not treated as invalid
input (see the counterexample: it can yield 0, and a zero product amount
under a larger desired amount yields a non-finite JS value), and no warning
is emitted anywhere. -/
theorem calculateQuantityMultiplier_ge_one :
    (∀ dq pt : String, scanQuantity dq.toList = none →
      calculateQuantityMultiplier dq pt = some 1) ∧
    (∀ dq pt : String, scanQuantity pt.toList = none →
      calculateQuantityMultiplier dq pt = some 1) ∧
    (∀ (dq pt : String) (da pa : Rat) (du pu : String),
      scanQuantity dq.toList = some (da, du) →
      scanQuantity pt.toList = some (pa, pu) →
      0 < da → 0 < pa →
      ∃ n, calculateQuantityMultiplier dq pt = some n ∧ 1 ≤ n) := by
  refine ⟨?_, ?_, ?_⟩
  · intro dq pt h
    unfold calculateQuantityMultiplier
    rw [h]
  · intro dq pt h
    unfold calculateQuantityMultiplier
    cases hd : scanQuantity dq.toList with
    | none => rfl
    | some p =>
      obtain ⟨a, u⟩ := p
      dsimp only
      rw [h]
  · intro dq pt da pa du pu hd hp hda hpa
    exact ⟨specMultiplier da du pa pu, calcQM_matches_spec dq pt da pa du pu hd hp hda hpa,
      specMultiplier_ge_one da pa du pu hda hpa⟩

/-- Witness for the amended claim C5 at a concrete input with positive
amounts. -/
theorem calculateQuantityMultiplier_ge_one_witness :
    scanQuantity "2kg".toList = some (((2:Nat):Rat), "kg") ∧
    (∃ n, calculateQuantityMultiplier "2kg" "1kg" = some n ∧ 1 ≤ n) :=
  ⟨rfl, calculateQuantityMultiplier_ge_one.2.2 "2kg" "1kg" ((2:Nat):Rat) ((1:Nat):Rat)
    "kg" "kg" rfl rfl (by norm_num) (by norm_num)⟩

/-- Claim C6: the calculator applies only the fixed kg to g conversion
across differing units, returns 1 on any other unit mismatch, ceils the
ratio only when the desired amount exceeds the product amount on a common
scale, and in particular 2kg versus 1kg gives 2, 2kg versus 500g gives 4,
1kg versus 1kg gives 1, and 2l versus 1kg gives 1. -/
theorem calculateQuantityMultiplier_conversion_spec :
    (∀ (dq pt : String) (da pa : Rat) (du pu : String),
      scanQuantity dq.toList = some (da, du) →
      scanQuantity pt.toList = some (pa, pu) →
      0 < da → 0 < pa →
      calculateQuantityMultiplier dq pt = some (specMultiplier da du pa pu)) ∧
    calculateQuantityMultiplier "2kg" "1kg" = some 2 ∧
    calculateQuantityMultiplier "2kg" "500g" = some 4 ∧
    calculateQuantityMultiplier "1kg" "1kg" = some 1 ∧
    calculateQuantityMultiplier "2l" "1kg" = some 1 := by
  refine ⟨calcQM_matches_spec, ?_, ?_, ?_, ?_⟩
  · rw [calcQM_matches_spec "2kg" "1kg" ((2:Nat):Rat) ((1:Nat):Rat) "kg" "kg" rfl rfl
      (by norm_num) (by norm_num)]
    unfold specMultiplier
    rw [if_pos rfl, if_pos (by norm_num : ((2:Nat):Rat) > ((1:Nat):Rat))]
    congr 1
    rw [Int.ceil_eq_iff]
    norm_num
  · rw [calcQM_matches_spec "2kg" "500g" ((2:Nat):Rat) ((500:Nat):Rat) "kg" "g" rfl rfl
      (by norm_num) (by norm_num)]
    unfold specMultiplier
    rw [if_neg (by decide : ¬(("kg":String) = "g"))]
    rw [if_pos (show ("kg":String) = "kg" ∧ ("g":String) = "g" from ⟨rfl, rfl⟩)]
    rw [if_pos (by norm_num : ((2:Nat):Rat) * 1000 > ((500:Nat):Rat))]
    congr 1
    rw [Int.ceil_eq_iff]
    norm_num
  · rw [calcQM_matches_spec "1kg" "1kg" ((1:Nat):Rat) ((1:Nat):Rat) "kg" "kg" rfl rfl
      (by norm_num) (by norm_num)]
    unfold specMultiplier
    rw [if_pos rfl, if_neg (by norm_num : ¬(((1:Nat):Rat) > ((1:Nat):Rat)))]
  · rw [calcQM_matches_spec "2l" "1kg" ((2:Nat):Rat) ((1:Nat):Rat) "l" "kg" rfl rfl
      (by norm_num) (by norm_num)]
    unfold specMultiplier
    rw [if_neg (by decide : ¬(("l":String) = "kg"))]
    rw [if_neg (by decide : ¬(("l":String) = "kg" ∧ ("kg":String) = "g"))]
    rw [if_neg (by decide : ¬(("l":String) = "g" ∧ ("kg":String) = "kg"))]

/-- Witness for claim C6 at a concrete g to kg input. -/
theorem calculateQuantityMultiplier_conversion_spec_witness :
    calculateQuantityMultiplier "500g" "1kg" =
      some (specMultiplier ((500:Nat):Rat) "g" ((1:Nat):Rat) "kg") :=
  calculateQuantityMultiplier_conversion_spec.1 "500g" "1kg" ((500:Nat):Rat) ((1:Nat):Rat)
    "g" "kg" rfl rfl (by norm_num) (by norm_num)

end Grocery
